import Mathlib

/-!
# Verification of the `ppt` portfolio tracker

Shallow embedding of the core of the repository (ledger, metrics engine,
risk classifier, encrypted persistence) and proofs of the behavioural
claims about it.

Conventions of the embedding:
* Python `float` values are modelled as `ℚ` (the program only ever adds,
  subtracts, multiplies, divides and compares them).  In Python, division
  by zero raises `ZeroDivisionError`; in `ℚ`, `x / 0 = 0`.  Every theorem
  that touches the weighted-average division either carries a positivity
  hypothesis or uses the same `/` expression on both sides, so this
  difference is never load-bearing.
* Python dicts of fixed shape (`portfolio` entries, `transactions`
  entries, `userdata` entries) are modelled as structures.
* In-place mutation of the module-level lists is modelled by explicit
  state passing: a function that mutates `portfolio` returns the new
  list.
* External collaborators (the `yfinance` market-data gateway, the
  `cryptography.fernet` authenticated-encryption primitive, the
  `json` serializer of the standard library) are not repository code;
  they are modelled by their contracts: the gateway as an oracle
  parameter, Fernet as ideal authenticated encryption, `json.dumps` /
  `json.loads` as the identity embedding of the snapshot value.
-/

/-- A `portfolio` entry, as built by `make_transaction` in
`portt_main.py`: `{"ticker": ..., "quantity": ..., "buy_price": ...,
"current_price": ..., "risk": ...}`.  `recalculate_portfolio` later adds
a `"status"` key; a dict that does not yet have that key is modelled by
`status = none`. -/
structure Asset where
  ticker : String
  quantity : ℚ
  buy_price : ℚ
  current_price : ℚ
  risk : String
  status : Option String := none
deriving Repr, DecidableEq

/-- A `transactions` entry, as built by `make_transaction`:
`{"date": ..., "ticker": ..., "type": ..., "quantity": ..., "price": ...}`. -/
structure Transaction where
  date : String
  ticker : String
  type : String
  quantity : ℚ
  price : ℚ
deriving Repr, DecidableEq

/-- The new-asset dict appended by `make_transaction` when no existing
position matches the ticker (portt_main.py lines 341-348). -/
def newAsset (ticker : String) (quantity price : ℚ) : Asset :=
  { ticker := ticker
    quantity := quantity
    buy_price := price
    current_price := price
    risk := "OPTIMAL"
    status := none }

/-- The in-place update of the matching asset in `make_transaction`
(portt_main.py lines 329-339): `some a'` models the mutated dict,
`none` models `portfolio.remove(existing_asset)`.  A `trans_type` other
than `"buy"`/`"sell"` matches neither branch and leaves the dict
untouched. -/
def updateExisting (a : Asset) (trans_type : String) (quantity price : ℚ) :
    Option Asset :=
  if trans_type = "buy" then
    let total_qty := a.quantity + quantity
    let total_cost := a.quantity * a.buy_price + quantity * price
    some { a with buy_price := total_cost / total_qty, quantity := total_qty }
  else if trans_type = "sell" then
    let q' := a.quantity - quantity
    if q' ≤ 0 then none else some { a with quantity := q' }
  else
    some a

/-- The portfolio update of `make_transaction` (portt_main.py lines
322-348): the first asset whose ticker matches is updated in place (or
removed); if none matches, a fresh asset is appended at the end.  The
Python code first scans for `existing_asset` and then branches; scanning
and updating in one pass is equivalent because only the first match is
ever touched. -/
def applyToPortfolio (portfolio : List Asset) (ticker trans_type : String)
    (quantity price : ℚ) : List Asset :=
  match portfolio with
  | [] => [newAsset ticker quantity price]
  | a :: rest =>
    if a.ticker = ticker then
      match updateExisting a trans_type quantity price with
      | some a' => a' :: rest
      | none => rest
    else
      a :: applyToPortfolio rest ticker trans_type quantity price

/-- The mutable module-level state touched by `make_transaction`. -/
structure LedgerState where
  portfolio : List Asset
  transactions : List Transaction
deriving Repr, DecidableEq

/-- The confirmed path of `make_transaction` (portt_main.py lines
313-350), starting from the already-normalized inputs (the ticker has
been uppercased and the type lowercased at lines 280/285): the new
transaction dict is appended to `transactions` unconditionally, then the
portfolio is updated. -/
def make_transaction (s : LedgerState) (date ticker trans_type : String)
    (quantity price : ℚ) : LedgerState :=
  { portfolio := applyToPortfolio s.portfolio ticker trans_type quantity price
    transactions :=
      s.transactions ++ [⟨date, ticker, trans_type, quantity, price⟩] }

/-! ## Helper lemmas about the portfolio update -/

/-- If no asset in the portfolio matches the ticker, the update appends a
fresh asset at the end, whatever the transaction type is. -/
theorem applyToPortfolio_no_match (pf : List Asset) (T tt : String)
    (q p : ℚ) (h : ∀ a ∈ pf, a.ticker ≠ T) :
    applyToPortfolio pf T tt q p = pf ++ [newAsset T q p] := by
  induction pf with
  | nil => rfl
  | cons a rest ih =>
    have ha : a.ticker ≠ T := h a (List.mem_cons_self a rest)
    simp only [applyToPortfolio, if_neg ha, List.cons_append]
    exact congrArg (a :: ·) (ih fun b hb => h b (List.mem_cons_of_mem a hb))

/-- If the first asset matching the ticker is `a` (everything before it
has a different ticker), the update rewrites exactly that asset. -/
theorem applyToPortfolio_first_match (pf₁ pf₂ : List Asset) (a : Asset)
    (T tt : String) (q p : ℚ)
    (h₁ : ∀ b ∈ pf₁, b.ticker ≠ T) (ha : a.ticker = T) :
    applyToPortfolio (pf₁ ++ a :: pf₂) T tt q p =
      pf₁ ++ (match updateExisting a tt q p with
              | some a' => a' :: pf₂
              | none => pf₂) := by
  induction pf₁ with
  | nil => simp [applyToPortfolio, ha]
  | cons b rest ih =>
    have hb : b.ticker ≠ T := h₁ b (List.mem_cons_self b rest)
    simp only [List.cons_append, applyToPortfolio, if_neg hb]
    exact congrArg (b :: ·) (ih fun c hc => h₁ c (List.mem_cons_of_mem b hc))

/-- If `trans_type` is neither `"buy"` nor `"sell"`, the in-place update
leaves the matching asset untouched. -/
theorem updateExisting_other (a : Asset) (tt : String) (q p : ℚ)
    (hb : tt ≠ "buy") (hs : tt ≠ "sell") :
    updateExisting a tt q p = some a := by
  simp [updateExisting, if_neg hb, if_neg hs]

/-- A position with positive quantity stays positive under the in-place
update, provided the transaction quantity is positive. -/
theorem updateExisting_pos (a : Asset) (tt : String) (q p : ℚ)
    (hq : 0 < q) (ha : 0 < a.quantity) (a' : Asset)
    (h : updateExisting a tt q p = some a') : 0 < a'.quantity := by
  by_cases hbuy : tt = "buy"
  · simp only [updateExisting, if_pos hbuy, Option.some.injEq] at h
    subst h
    simpa using add_pos ha hq
  · by_cases hsell : tt = "sell"
    · simp only [updateExisting, if_neg hbuy, if_pos hsell] at h
      split at h
      · exact Option.noConfusion h
      · rename_i hq'
        simp only [Option.some.injEq] at h
        subst h
        simpa using lt_of_not_le hq'
    · simp only [updateExisting, if_neg hbuy, if_neg hsell,
        Option.some.injEq] at h
      subst h
      exact ha

/-- The portfolio update preserves positivity of all quantities when the
transaction quantity is positive. -/
theorem applyToPortfolio_pos (T tt : String) (q p : ℚ) (hq : 0 < q) :
    ∀ pf : List Asset, (∀ a ∈ pf, 0 < a.quantity) →
      ∀ a ∈ applyToPortfolio pf T tt q p, 0 < a.quantity := by
  intro pf
  induction pf with
  | nil =>
    intro _ a hmem
    simp only [applyToPortfolio, List.mem_singleton] at hmem
    subst hmem
    exact hq
  | cons b rest ih =>
    intro hpos a hmem
    by_cases hb : b.ticker = T
    · simp only [applyToPortfolio, if_pos hb] at hmem
      rcases hupd : updateExisting b tt q p with _ | b'
      · rw [hupd] at hmem
        exact hpos a (List.mem_cons_of_mem b hmem)
      · rw [hupd] at hmem
        rcases List.mem_cons.1 hmem with h | h
        · subst h
          exact updateExisting_pos b tt q p hq
            (hpos b (List.mem_cons_self b rest)) a hupd
        · exact hpos a (List.mem_cons_of_mem b h)
    · simp only [applyToPortfolio, if_neg hb] at hmem
      rcases List.mem_cons.1 hmem with h | h
      · subst h
        exact hpos a (List.mem_cons_self a rest)
      · exact ih (fun c hc => hpos c (List.mem_cons_of_mem b hc)) a h

/-- If some asset in the portfolio matches the ticker and the
transaction type is neither `"buy"` nor `"sell"`, the portfolio is left
unchanged (neither branch of the type dispatch fires). -/
theorem applyToPortfolio_other_type (pf : List Asset) (T tt : String)
    (q p : ℚ) (hb : tt ≠ "buy") (hs : tt ≠ "sell")
    (h : ∃ a ∈ pf, a.ticker = T) :
    applyToPortfolio pf T tt q p = pf := by
  induction pf with
  | nil => simp at h
  | cons a rest ih =>
    by_cases ha : a.ticker = T
    · simp only [applyToPortfolio, if_pos ha, updateExisting_other a tt q p hb hs]
    · obtain ⟨b, hbmem, hbt⟩ := h
      rcases List.mem_cons.1 hbmem with hba | hbr
      · exact absurd (hba ▸ hbt) ha
      · simp only [applyToPortfolio, if_neg ha]
        exact congrArg (a :: ·) (ih ⟨b, hbr, hbt⟩)

/-! ## Claim theorems: the ledger -/

/-- C1, counterexample.  A confirmed SELL of a ticker that matches no
held position — invalid according to the claim — is nevertheless
appended to the transaction log, and it changes the position collection
(it creates a brand-new position).  No `ValidationError` exists anywhere
in `make_transaction`. -/
theorem C1_counterexample :
    (make_transaction ⟨[], []⟩ "2025-01-01" "ZZZ" "sell" 1 10).transactions ≠ [] ∧
    (make_transaction ⟨[], []⟩ "2025-01-01" "ZZZ" "sell" 1 10).portfolio ≠ [] := by
  decide

/-- C1, amended.  `make_transaction` performs no validation at all:
every confirmed transaction — unheld sell, oversell, non-positive
quantity, negative price alike — is appended to the transaction log; a
SELL whose ticker matches no held position creates a new position
exactly as a BUY would; a SELL of at least the held quantity removes the
position instead of failing. -/
theorem C1_no_validation (s : LedgerState) (date T tt : String) (q p : ℚ) :
    (make_transaction s date T tt q p).transactions
        = s.transactions ++ [⟨date, T, tt, q, p⟩] ∧
    ((∀ a ∈ s.portfolio, a.ticker ≠ T) →
      (make_transaction s date T tt q p).portfolio
        = s.portfolio ++ [newAsset T q p]) ∧
    (∀ pf₁ pf₂ a, s.portfolio = pf₁ ++ a :: pf₂ →
      (∀ b ∈ pf₁, b.ticker ≠ T) → a.ticker = T → a.quantity ≤ q →
      (make_transaction s date T "sell" q p).portfolio = pf₁ ++ pf₂) := by
  refine ⟨rfl, ?_, ?_⟩
  · intro h
    show applyToPortfolio s.portfolio T tt q p = _
    exact applyToPortfolio_no_match s.portfolio T tt q p h
  · intro pf₁ pf₂ a hs h₁ ha hle
    show applyToPortfolio s.portfolio T "sell" q p = _
    rw [hs, applyToPortfolio_first_match pf₁ pf₂ a T "sell" q p h₁ ha]
    have : updateExisting a "sell" q p = none := by
      simp [updateExisting, sub_nonpos.mpr hle]
    rw [this]

/-- C1 witness: the amended theorem applied at the concrete unheld-sell
input. -/
theorem C1_no_validation_witness :
    (make_transaction ⟨[], []⟩ "2025-02-02" "QQQ" "sell" 2 3).portfolio
      = [newAsset "QQQ" 2 3] := by
  have h := (C1_no_validation ⟨[], []⟩ "2025-02-02" "QQQ" "sell" 2 3).2.1
  simpa using h (by simp)

/-- C2.  A confirmed BUY on a ticker with an existing position (the
first match, everything before it having a different ticker) updates
that position to `quantity = old.quantity + q` and `buy_price =
(old.quantity * old.buy_price + q * p) / (old.quantity + q)`, leaving
`current_price`, `risk`, `status` and every other position untouched. -/
theorem C2_buy_weighted_average (pf₁ pf₂ : List Asset) (a : Asset)
    (txs : List Transaction) (date T : String) (q p : ℚ)
    (h₁ : ∀ b ∈ pf₁, b.ticker ≠ T) (ha : a.ticker = T) :
    (make_transaction ⟨pf₁ ++ a :: pf₂, txs⟩ date T "buy" q p).portfolio =
      pf₁ ++ { a with
                quantity := a.quantity + q
                buy_price :=
                  (a.quantity * a.buy_price + q * p) / (a.quantity + q) }
            :: pf₂ := by
  show applyToPortfolio (pf₁ ++ a :: pf₂) T "buy" q p = _
  rw [applyToPortfolio_first_match pf₁ pf₂ a T "buy" q p h₁ ha]
  simp [updateExisting]

/-- C2 witness: the spec's scenario — {AAPL, qty 10, buy 150, cur 170}
plus BUY {qty 5, price 160} gives quantity 15 and average 2300/15, with
current price still 170. -/
theorem C2_buy_weighted_average_witness :
    (make_transaction ⟨[⟨"AAPL", 10, 150, 170, "high", none⟩], []⟩
        "2025-04-01" "AAPL" "buy" 5 160).portfolio =
      [⟨"AAPL", 15, 2300/15, 170, "high", none⟩] := by
  have h := C2_buy_weighted_average [] [] ⟨"AAPL", 10, 150, 170, "high", none⟩
      [] "2025-04-01" "AAPL" 5 160 (by simp) rfl
  exact h.trans (by norm_num)

/-- C3.  A confirmed SELL on a ticker with an existing position (the
first match): selling strictly less than the held quantity just
decreases `quantity` (buy price, current price, risk, status untouched);
selling exactly the held quantity removes the position from the
collection. -/
theorem C3_sell_update (pf₁ pf₂ : List Asset) (a : Asset)
    (txs : List Transaction) (date T : String) (q p : ℚ)
    (h₁ : ∀ b ∈ pf₁, b.ticker ≠ T) (ha : a.ticker = T) :
    (q < a.quantity →
      (make_transaction ⟨pf₁ ++ a :: pf₂, txs⟩ date T "sell" q p).portfolio =
        pf₁ ++ { a with quantity := a.quantity - q } :: pf₂) ∧
    (q = a.quantity →
      (make_transaction ⟨pf₁ ++ a :: pf₂, txs⟩ date T "sell" q p).portfolio =
        pf₁ ++ pf₂) := by
  constructor
  · intro hlt
    show applyToPortfolio (pf₁ ++ a :: pf₂) T "sell" q p = _
    rw [applyToPortfolio_first_match pf₁ pf₂ a T "sell" q p h₁ ha]
    have hpos : ¬ (a.quantity - q ≤ 0) := by
      simp only [not_le, sub_pos]
      exact hlt
    simp [updateExisting, hpos]
  · intro heq
    show applyToPortfolio (pf₁ ++ a :: pf₂) T "sell" q p = _
    rw [applyToPortfolio_first_match pf₁ pf₂ a T "sell" q p h₁ ha]
    have hz : a.quantity - q ≤ 0 := by simp [heq]
    simp [updateExisting, hz]

/-- C3 witness: selling 4 of 10 TSLA leaves 6 with the buy price
unchanged; (the removal branch is exercised through the theorem's second
conjunct at q = 10 in the same proof). -/
theorem C3_sell_update_witness :
    (make_transaction ⟨[⟨"TSLA", 10, 700, 650, "high", none⟩], []⟩
        "2025-05-01" "TSLA" "sell" 4 660).portfolio =
      [⟨"TSLA", 6, 700, 650, "high", none⟩] ∧
    (make_transaction ⟨[⟨"TSLA", 10, 700, 650, "high", none⟩], []⟩
        "2025-05-01" "TSLA" "sell" 10 660).portfolio = [] := by
  constructor
  · have h := (C3_sell_update [] [] ⟨"TSLA", 10, 700, 650, "high", none⟩
        [] "2025-05-01" "TSLA" 4 660 (by simp) rfl).1 (by norm_num)
    exact h.trans (by norm_num)
  · have h := (C3_sell_update [] [] ⟨"TSLA", 10, 700, 650, "high", none⟩
        [] "2025-05-01" "TSLA" 10 660 (by simp) rfl).2 rfl
    simpa using h

/-- C4, counterexample.  The claimed invariant "every position in the
collection has quantity > 0 after every ledger operation" fails: a
confirmed BUY with quantity 0 (nothing rejects it) creates a brand-new
position with quantity 0, which stays in the collection. -/
theorem C4_counterexample :
    ¬ (∀ a ∈ (make_transaction ⟨[], []⟩ "2025-01-01" "NIL" "buy" 0 10).portfolio,
        0 < a.quantity) := by
  decide

/-- C4, amended.  The invariant holds exactly under the guard the spec
prescribes but the code never enforces: if the applied transaction has
quantity > 0 and every position already in the collection has
quantity > 0, then every position after `make_transaction` still has
quantity > 0 (BUY adds a positive amount, a new position starts at the
transaction quantity, and the SELL branch removes any position whose
quantity would drop to ≤ 0). -/
theorem C4_qty_positive (s : LedgerState) (date T tt : String) (q p : ℚ)
    (hq : 0 < q) (hpos : ∀ a ∈ s.portfolio, 0 < a.quantity) :
    ∀ a ∈ (make_transaction s date T tt q p).portfolio, 0 < a.quantity := by
  exact applyToPortfolio_pos T tt q p hq s.portfolio hpos

/-- C4 witness: the amended invariant applied at a concrete buy on a
one-position ledger. -/
theorem C4_qty_positive_witness :
    0 < (newAsset "NEW" 1 10).quantity := by
  exact C4_qty_positive ⟨[], []⟩ "2025-01-01" "NEW" "buy" 1 10 (by norm_num)
    (by simp) (newAsset "NEW" 1 10) (by simp [make_transaction, applyToPortfolio])

/-- C10.  A confirmed transaction whose (lowercased) type is neither
`"buy"` nor `"sell"` is still appended to the transaction log; if no
position matches its ticker, a new position is created exactly as for a
BUY (quantity = q, buy price = current price = p, risk `"OPTIMAL"`); if
some position matches its ticker, the portfolio is left unchanged. -/
theorem C10_other_type (s : LedgerState) (date T tt : String) (q p : ℚ)
    (hb : tt ≠ "buy") (hs : tt ≠ "sell") :
    (make_transaction s date T tt q p).transactions
        = s.transactions ++ [⟨date, T, tt, q, p⟩] ∧
    ((∀ a ∈ s.portfolio, a.ticker ≠ T) →
      (make_transaction s date T tt q p).portfolio
        = s.portfolio ++ [newAsset T q p]) ∧
    ((∃ a ∈ s.portfolio, a.ticker = T) →
      (make_transaction s date T tt q p).portfolio = s.portfolio) := by
  refine ⟨rfl, ?_, ?_⟩
  · intro h
    exact applyToPortfolio_no_match s.portfolio T tt q p h
  · intro h
    exact applyToPortfolio_other_type s.portfolio T tt q p hb hs h

/-- C10 witness: a confirmed `"gift"` transaction on an unheld ticker
creates a BUY-style position; on a held ticker it leaves the portfolio
alone. -/
theorem C10_other_type_witness :
    (make_transaction ⟨[], []⟩ "2025-06-01" "GIFT" "gift" 2 5).portfolio
        = [newAsset "GIFT" 2 5] ∧
    (make_transaction ⟨[⟨"GIFT", 7, 4, 4, "OPTIMAL", none⟩], []⟩
        "2025-06-01" "GIFT" "gift" 2 5).portfolio
        = [⟨"GIFT", 7, 4, 4, "OPTIMAL", none⟩] := by
  constructor
  · have h := (C10_other_type ⟨[], []⟩ "2025-06-01" "GIFT" "gift" 2 5
        (by decide) (by decide)).2.1
    simpa using h (by simp)
  · have h := (C10_other_type ⟨[⟨"GIFT", 7, 4, 4, "OPTIMAL", none⟩], []⟩
        "2025-06-01" "GIFT" "gift" 2 5 (by decide) (by decide)).2.2
    exact h ⟨⟨"GIFT", 7, 4, 4, "OPTIMAL", none⟩, by simp, rfl⟩

/-! ## Metrics engine and risk classifier (computations.py) -/

/-- `percent_return` (computations.py lines 10-14). -/
def percent_return (item : Asset) : ℚ :=
  if item.buy_price = 0 then 0
  else (item.current_price - item.buy_price) / item.buy_price * 100

/-- `market_value` (computations.py lines 17-19). -/
def market_value (item : Asset) : ℚ :=
  item.quantity * item.current_price

/-- `unrealized_pl` (computations.py lines 22-24). -/
def unrealized_pl (item : Asset) : ℚ :=
  (item.current_price - item.buy_price) * item.quantity

/-- `volatility` (computations.py lines 27-44).  The `yfinance` gateway
call is external: `fetch` is its outcome (`error` models any raised
exception, `ok closes` the fetched daily closes).  Fewer than 2 data
points give `none`; otherwise the annualized standard deviation of the
daily returns, `returns.std() * 252 ** 0.5`, is computed — a
floating-point quantity involving the irrational √252, abstracted here
as the oracle `annualize`. -/
def volatility (fetch : Except Unit (List ℚ)) (annualize : List ℚ → ℚ) :
    Option ℚ :=
  match fetch with
  | .error _ => none
  | .ok closes =>
    if closes.length < 2 then none else some (annualize closes)

/-- The threshold dispatch of `classify_risk` (computations.py lines
47-63); its input is `volatility(item["ticker"])`, the gateway-derived
volatility, `none` when that is `None`. -/
def classify_risk (vol : Option ℚ) : String :=
  match vol with
  | none => "UNKNOWN"
  | some v =>
    if v > 45/100 then "HIGH"
    else if v > 20/100 then "OPTIMAL"
    else "LOW"

/-- `RISK_WEIGHT` (models.py lines 18-22), a dict queried with
`.get(level, 2)` in `risk_score`. -/
def RISK_WEIGHT (level : String) : Option ℕ :=
  if level = "LOW" then some 1
  else if level = "OPTIMAL" then some 2
  else if level = "HIGH" then some 3
  else none

/-- `risk_score` (computations.py lines 66-69).  `volOf` is the
market-data oracle giving each ticker's fetched volatility. -/
def risk_score (volOf : String → Option ℚ) (item : Asset) : ℕ :=
  (RISK_WEIGHT (classify_risk (volOf item.ticker))).getD 2

/-- The `userdata[1]` preferences dict (models.py line 38). -/
structure Preferences where
  layout : String
  order : String
deriving Repr, DecidableEq

/-- The dictionary returned by `recalculate_portfolio` (computations.py
lines 167-177).  `best_ass` / `worst_ass` hold the `(ticker, buy price,
current price)` data whose prices the source renders as 2-decimal
strings; `worst_ass` is the empty list when the portfolio is empty,
modelled by `none`. -/
structure Metrics where
  total_value : ℚ
  sorted_by_return : List Asset
  sorted_by_risk : List Asset
  sorted_by_pnl : List Asset
  top_3_best : List Asset
  best_ass : List (String × ℚ × ℚ)
  worst : Option Asset
  worst_ass : Option (String × ℚ × ℚ)
  unrealised_pnl : List (String × ℚ)
deriving Repr, DecidableEq

/-- The in-place status assignment of `recalculate_portfolio`
(computations.py lines 161-165). -/
def setStatus (a : Asset) : Asset :=
  { a with status := some (if percent_return a > 0 then "profit" else "loss") }

/-- `recalculate_portfolio` (computations.py lines 122-177).  The Python
function mutates each input dict by writing its `"status"` key and
returns a dict of metrics whose lists alias those same (mutated) dicts;
here the pair `(mutated input list, metrics)` makes both effects
explicit.  The sorts are Python's stable `sorted(..., reverse=True)`
(descending by key, ties kept in input order), which on a total preorder
coincides with insertion sort by the flipped non-strict comparison; none
of the sort keys reads `"status"`, so sorting the status-updated assets
is the same as sorting first and mutating the shared dicts afterwards.
`top_3_best = sorted_by_return[0:3] if len(...) >= 3 else
sorted_by_return` is exactly `take 3`. -/
def recalculate_portfolio (volOf : String → Option ℚ)
    (portfolio_list : List Asset) (preferences : Preferences) :
    List Asset × Metrics :=
  let total_value := (portfolio_list.map market_value).sum
  let updated := portfolio_list.map setStatus
  let sorted_by_return :=
    updated.insertionSort (fun a b => percent_return b ≤ percent_return a)
  let sorted_by_pnl :=
    updated.insertionSort (fun a b => unrealized_pl b ≤ unrealized_pl a)
  let sorted_by_risk :=
    if preferences.order = "HtoLrisk" then
      updated.insertionSort (fun a b => risk_score volOf b ≤ risk_score volOf a)
    else
      updated.insertionSort (fun a b => risk_score volOf a ≤ risk_score volOf b)
  let top_3_best := sorted_by_return.take 3
  let best_ass :=
    top_3_best.map (fun item => (item.ticker, item.buy_price, item.current_price))
  let worst := sorted_by_return.getLast?
  let worst_ass :=
    worst.map (fun w => (w.ticker, w.buy_price, w.current_price))
  let unrealised_pnl := sorted_by_pnl.map (fun item => (item.ticker, unrealized_pl item))
  (updated,
    { total_value := total_value
      sorted_by_return := sorted_by_return
      sorted_by_risk := sorted_by_risk
      sorted_by_pnl := sorted_by_pnl
      top_3_best := top_3_best
      best_ass := best_ass
      worst := worst
      worst_ass := worst_ass
      unrealised_pnl := unrealised_pnl })

/-! ## Claim theorems: metrics engine and risk classifier -/

/-- C7, counterexample.  `recalculate_portfolio` does mutate the
position collection: on a single profitable position without a
`"status"` key it writes `status = "profit"` into the input dict, so the
collection after the call differs from the collection before it. -/
theorem C7_counterexample :
    (recalculate_portfolio (fun _ => none)
        [⟨"AAPL", 10, 150, 170, "high", none⟩]
        ⟨"1", "HtoLrisk"⟩).1 ≠ [⟨"AAPL", 10, 150, 170, "high", none⟩] := by
  decide

/-- C7, amended.  `recalculate_portfolio` never adds, removes or
reorders positions and leaves every field except `status` untouched,
but it does overwrite each input position's `status` in place with
`"profit"` (return > 0) or `"loss"` (return ≤ 0). -/
theorem C7_status_only_mutation (volOf : String → Option ℚ)
    (pf : List Asset) (prefs : Preferences) :
    List.Forall₂
      (fun b a =>
        b.ticker = a.ticker ∧ b.quantity = a.quantity ∧
        b.buy_price = a.buy_price ∧ b.current_price = a.current_price ∧
        b.risk = a.risk ∧
        b.status = some (if percent_return a > 0 then "profit" else "loss"))
      (recalculate_portfolio volOf pf prefs).1 pf := by
  show List.Forall₂ _ (pf.map setStatus) pf
  induction pf with
  | nil => exact List.Forall₂.nil
  | cons a rest ih =>
    exact List.Forall₂.cons ⟨rfl, rfl, rfl, rfl, rfl, rfl⟩ ih

/-- C8.  `classify_risk` is a pure step function of the volatility with
the fixed thresholds 0.45 and 0.20: HIGH exactly on volatility > 0.45,
OPTIMAL exactly on 0.20 < volatility ≤ 0.45, LOW exactly on
volatility ≤ 0.20, and UNKNOWN exactly when the volatility is
unavailable — which for `volatility` means a gateway failure or fewer
than 2 data points. -/
theorem C8_classify_thresholds (fetch : Except Unit (List ℚ))
    (annualize : List ℚ → ℚ) (v : ℚ) :
    (classify_risk (some v) = "HIGH" ↔ 45/100 < v) ∧
    (classify_risk (some v) = "OPTIMAL" ↔ 20/100 < v ∧ v ≤ 45/100) ∧
    (classify_risk (some v) = "LOW" ↔ v ≤ 20/100) ∧
    classify_risk none = "UNKNOWN" ∧
    (classify_risk (volatility fetch annualize) = "UNKNOWN" ↔
      fetch = .error () ∨ ∃ closes, fetch = .ok closes ∧ closes.length < 2) := by
  have hvol : ∀ w : ℚ, classify_risk (some w) ≠ "UNKNOWN" := by
    intro w
    simp only [classify_risk]
    split_ifs <;> decide
  refine ⟨?_, ?_, ?_, rfl, ?_⟩
  · simp only [classify_risk]
    split_ifs with h1 h2
    · simpa using h1
    · constructor
      · intro h; exact absurd h (by decide)
      · intro h; exact absurd h h1
    · constructor
      · intro h; exact absurd h (by decide)
      · intro h; exact absurd h h1
  · simp only [classify_risk]
    split_ifs with h1 h2
    · constructor
      · intro h; exact absurd h (by decide)
      · rintro ⟨-, hle⟩; exact absurd h1 (not_lt.mpr hle)
    · simp only [true_iff]
      exact ⟨h2, le_of_not_lt h1⟩
    · constructor
      · intro h; exact absurd h (by decide)
      · rintro ⟨hgt, -⟩; exact absurd hgt h2
  · simp only [classify_risk]
    split_ifs with h1 h2
    · constructor
      · intro h; exact absurd h (by decide)
      · intro hle; exact absurd (lt_trans (by norm_num) h1) (not_lt.mpr hle)
    · constructor
      · intro h; exact absurd h (by decide)
      · intro hle; exact absurd h2 (not_lt.mpr hle)
    · simp only [true_iff]
      exact le_of_not_lt h2
  · cases fetch with
    | error e =>
      cases e
      simp [volatility, classify_risk]
    | ok closes =>
      by_cases hlen : closes.length < 2
      · simp [volatility, hlen, classify_risk]
      · simp only [volatility, if_neg hlen]
        constructor
        · intro h; exact absurd h (hvol _)
        · rintro (h | ⟨c, hc, hclen⟩)
          · exact Except.noConfusion h
          · obtain rfl : c = closes := (Except.ok.injEq _ _ ▸ hc.symm)
            exact absurd hclen hlen

/-! ## Encrypted persistence (passencrypt.py) and snapshot encoding -/

/-- The `userdata[0]` credentials dict (models.py line 37). -/
structure Creds where
  nick : String
  password : String
  birthday : String
  country : String
deriving Repr, DecidableEq

/-- The two-element `userdata` list (models.py lines 36-39): credentials
followed by preferences. -/
structure Userdata where
  creds : Creds
  prefs : Preferences
deriving Repr, DecidableEq

/-- The full application state serialized by `save_state_encrypted` /
`save_state` (portt_main.py lines 40-44 and 54-58): the dict
`{"portfolio": ..., "transactions": ..., "userdata": ...}`. -/
structure AppState where
  portfolio : List Asset
  transactions : List Transaction
  userdata : Userdata
deriving Repr, DecidableEq

/-- A Fernet token, modelled as ideal authenticated encryption: the
token binds the encrypting key and determines the plaintext.
`json.dumps` / `json.loads` of the standard library (a faithful
round-trip on the JSON-native snapshot dict) are modelled as the
identity embedding of the snapshot value into the plaintext. -/
structure FernetToken where
  key : ℕ
  plaintext : AppState
deriving Repr, DecidableEq

/-- The error taxonomy of the persistence layer: Fernet raises
`InvalidToken` on a wrong key or a corrupted/tampered token. -/
inductive PersistenceError where
  | invalidToken
deriving Repr, DecidableEq

/-- `Fernet(key).encrypt(plaintext)` of the `cryptography` library,
idealized. -/
def fernet_encrypt (key : ℕ) (obj : AppState) : FernetToken :=
  ⟨key, obj⟩

/-- `Fernet(key).decrypt(token)`: the plaintext when the key matches the
one the token was built under, an `InvalidToken` error otherwise —
never silently wrong data. -/
def fernet_decrypt (key : ℕ) (t : FernetToken) :
    Except PersistenceError AppState :=
  if t.key = key then .ok t.plaintext else .error .invalidToken

/-- `encrypt_state(obj, key)` (passencrypt.py lines 88-98): serialize
the state, encrypt it under `key` and write the token to the state
file.  The result is the new contents of the state file. -/
def encrypt_state (obj : AppState) (key : ℕ) : Option FernetToken :=
  some (fernet_encrypt key obj)

/-- `decrypt_state(key)` (passencrypt.py lines 100-107): `none` models a
missing state file and yields `ok none` (no error); otherwise the stored
token is decrypted (integrity-checked) and deserialized, and a failure
propagates as an exception (`error`). -/
def decrypt_state (key : ℕ) (file : Option FernetToken) :
    Except PersistenceError (Option AppState) :=
  match file with
  | none => .ok none
  | some token => (fernet_decrypt key token).map some

/-- `load_state()` (passencrypt.py lines 118-125): returns the decrypted
state dict, or `None` on *any* exception — a decryption failure
included. -/
def load_state (key : ℕ) (file : Option FernetToken) : Option AppState :=
  match decrypt_state key file with
  | .ok v => v
  | .error _ => none

/-- The sample state of models.py, used as a concrete snapshot. -/
def demoState : AppState :=
  { portfolio := [⟨"AAPL", 10, 150, 170, "high", none⟩,
                  ⟨"TSLA", 3, 700, 650, "high", none⟩]
    transactions := [⟨"2025-03-01", "AAPL", "buy", 5, 145⟩]
    userdata := ⟨⟨"x", "123", "14/09/2007", "Minnesota"⟩, ⟨"1", "HtoLrisk"⟩⟩ }

/-! ## Claim theorems: persistence -/

/-- C5, counterexample.  At the public API the two outcomes are *not*
distinguishable: `load_state` catches every exception and returns
`None`, so loading with the wrong key against an existing state file
returns exactly the same `None` as loading when no state file exists. -/
theorem C5_counterexample :
    load_state 0 (encrypt_state demoState 1) = none ∧
    load_state 0 none = none ∧
    load_state 0 (encrypt_state demoState 1) = load_state 0 none := by
  exact ⟨rfl, rfl, rfl⟩

/-- C5, amended.  Inside the layer, `decrypt_state` does keep the two
outcomes apart — a missing state file yields `ok none` (no error) and a
wrong key yields a `PersistenceError` (`InvalidToken`) — but the
exported `load_state` wrapper swallows the exception and returns `None`
for both, so its caller cannot distinguish them. -/
theorem C5_absent_vs_error (x : AppState) (k k' : ℕ) (h : k' ≠ k) :
    decrypt_state k none = .ok none ∧
    decrypt_state k' (encrypt_state x k) = .error .invalidToken ∧
    load_state k' (encrypt_state x k) = load_state k' none := by
  refine ⟨rfl, ?_, ?_⟩
  · simp [decrypt_state, encrypt_state, fernet_encrypt, fernet_decrypt,
      if_neg (Ne.symm h), Except.map]
  · simp [load_state, decrypt_state, encrypt_state, fernet_encrypt,
      fernet_decrypt, if_neg (Ne.symm h), Except.map]

/-- C5 witness: the amended theorem at concrete keys 5 and 7. -/
theorem C5_absent_vs_error_witness :
    decrypt_state 5 none = .ok none ∧
    decrypt_state 7 (encrypt_state demoState 5) = .error .invalidToken ∧
    load_state 7 (encrypt_state demoState 5) = load_state 7 none := by
  exact C5_absent_vs_error demoState 5 7 (by decide)

/-- C6.  Decrypting with the encrypting key recovers the snapshot
exactly, and decrypting with any other key fails with a
`PersistenceError` instead of returning wrong data. -/
theorem C6_roundtrip (x : AppState) (k k' : ℕ) (h : k' ≠ k) :
    decrypt_state k (encrypt_state x k) = .ok (some x) ∧
    decrypt_state k' (encrypt_state x k) = .error .invalidToken := by
  constructor
  · simp [decrypt_state, encrypt_state, fernet_encrypt, fernet_decrypt,
      Except.map]
  · simp [decrypt_state, encrypt_state, fernet_encrypt, fernet_decrypt,
      if_neg (Ne.symm h), Except.map]

/-- C6 witness: round-trip and wrong-key failure at keys 0 and 1 on the
sample snapshot. -/
theorem C6_roundtrip_witness :
    decrypt_state 0 (encrypt_state demoState 0) = .ok (some demoState) ∧
    decrypt_state 1 (encrypt_state demoState 0) = .error .invalidToken := by
  exact C6_roundtrip demoState 0 1 (by decide)

/-- The top-level member names of the persisted snapshot dict built in
`save_state_encrypted` / `save_state` (portt_main.py lines 40-44):
`{"portfolio": ..., "transactions": ..., "userdata": ...}`. -/
def snapshot_keys : List String :=
  ["portfolio", "transactions", "userdata"]

/-- A decoded stored snapshot as consumed by the load paths
(portt_main.py lines 75-77 and 621-627): each of the three members is
read with `data.get(member, in-memory value)` / `loaded.get(...)`, so
any member may be absent. -/
structure StoredData where
  portfolio : Option (List Asset)
  transactions : Option (List Transaction)
  userdata : Option Userdata
deriving Repr, DecidableEq

/-- The merge performed on load (portt_main.py lines 75-77, likewise
621-627): a member present in the stored object replaces the in-memory
collection; a missing member keeps the in-memory pre-load value. -/
def load_merge (data : StoredData) (pre : AppState) : AppState :=
  { portfolio := data.portfolio.getD pre.portfolio
    transactions := data.transactions.getD pre.transactions
    userdata := data.userdata.getD pre.userdata }

/-- C9, counterexample.  The snapshot's top-level members are not named
as in the spec's data model: they are `"portfolio"`, `"transactions"`,
`"userdata"` — neither `"positions"` nor `"preferences"` occurs (and
`"userdata"` bundles the credentials together with the preferences). -/
theorem C9_counterexample :
    snapshot_keys ≠ ["positions", "transactions", "preferences"] ∧
    "positions" ∉ snapshot_keys ∧ "preferences" ∉ snapshot_keys := by
  decide

/-- C9, amended.  The persisted snapshot has exactly three top-level
members, named `"portfolio"`, `"transactions"` and `"userdata"` (the
last bundling credentials and preferences), and on load each member
missing from the stored object defaults to the corresponding in-memory
pre-load value while each present member replaces it — a merge-if-absent,
not a strict replace. -/
theorem C9_snapshot_members (data : StoredData) (pre : AppState) :
    snapshot_keys = ["portfolio", "transactions", "userdata"] ∧
    (data.portfolio = none → (load_merge data pre).portfolio = pre.portfolio) ∧
    (data.transactions = none →
      (load_merge data pre).transactions = pre.transactions) ∧
    (data.userdata = none → (load_merge data pre).userdata = pre.userdata) ∧
    (∀ v, data.portfolio = some v → (load_merge data pre).portfolio = v) ∧
    (∀ v, data.transactions = some v → (load_merge data pre).transactions = v) ∧
    (∀ v, data.userdata = some v → (load_merge data pre).userdata = v) := by
  refine ⟨rfl, ?_, ?_, ?_, ?_, ?_, ?_⟩
  · intro h; simp [load_merge, h]
  · intro h; simp [load_merge, h]
  · intro h; simp [load_merge, h]
  · intro v h; simp [load_merge, h]
  · intro v h; simp [load_merge, h]
  · intro v h; simp [load_merge, h]

/-- C9 witness: a stored object missing its `"transactions"` and
`"userdata"` members keeps the in-memory values of those members while
its present `"portfolio"` member replaces the in-memory portfolio. -/
theorem C9_snapshot_members_witness :
    (load_merge ⟨some [], none, none⟩ demoState).transactions
        = demoState.transactions ∧
    (load_merge ⟨some [], none, none⟩ demoState).userdata
        = demoState.userdata ∧
    (load_merge ⟨some [], none, none⟩ demoState).portfolio = [] := by
  refine ⟨?_, ?_, ?_⟩
  · exact (C9_snapshot_members ⟨some [], none, none⟩ demoState).2.2.1 rfl
  · exact (C9_snapshot_members ⟨some [], none, none⟩ demoState).2.2.2.1 rfl
  · exact (C9_snapshot_members ⟨some [], none, none⟩ demoState).2.2.2.2.1 [] rfl
